import Mathlib

set_option maxRecDepth 1000000

/-!
Verification development for the signature condition types of the
five-bells-condition crypto-conditions library.

The source files `src/types/rsa-sha256.js` and `src/types/ed25519.js` are
embedded shallowly: JavaScript objects become Lean structures, mutating
methods become state-passing functions returning the post-state together
with an optional thrown error, and pure or read-only methods return
`Except Err` results. Byte buffers are `List Nat` with byte values below
256 where it matters.

The OER codec (oer-utils Reader, Writer, Predictor), the URI codec, the
cryptographic primitives and the high-level API are dependencies of those
two files that live outside the embedded sources; they are modelled from
the specification document, and every such definition is marked
`Modelled from the spec:` in its doc comment.
-/

/-- Error kinds thrown by the library: MissingDataError, ValidationError,
TypeError, parse errors from the OER reader, and plain `Error`. -/
inductive Err where
  | missingData (msg : String)
  | validationError (msg : String)
  | typeError (msg : String)
  | parseError (msg : String)
  | plainError (msg : String)
deriving DecidableEq, Repr

/-! ## OER codec, modelled from the spec (oer-utils is outside `src/`) -/

/-- Modelled from the spec: minimal big-endian byte string of an unsigned
integer ("big-endian minimum-length bytes"); zero encodes as no bytes.
The first argument is recursion fuel; `n` itself is always enough fuel. -/
def beBytesAux : Nat → Nat → List Nat
  | 0, _ => []
  | fuel + 1, n => if n = 0 then [] else beBytesAux fuel (n / 256) ++ [n % 256]

/-- Minimal big-endian byte string of `n`. -/
def beBytes (n : Nat) : List Nat := beBytesAux n n

/-- Value of a big-endian byte string. -/
def ofBEBytes : List Nat → Nat
  | [] => 0
  | b :: bs => b * 256 ^ bs.length + ofBEBytes bs

/-- Modelled from the spec: a VarUInt is the minimal big-endian value bytes
prefixed by their count as a single byte. -/
def writeVarUInt (n : Nat) : List Nat :=
  (beBytes n).length :: beBytes n

/-- Modelled from the spec: a VarOctetString is the octet string prefixed by
its length as a VarUInt. -/
def writeVarOctetString (b : List Nat) : List Nat :=
  writeVarUInt b.length ++ b

/-- Modelled from the spec: the Predictor is a size-only writer, so the size
it accumulates for a VarOctetString is the length the Writer would emit. -/
def predictVarOctetString (b : List Nat) : Nat :=
  (writeVarOctetString b).length

/-- Modelled from the spec: the Writer emits a fixed-size octet string
verbatim; a buffer of the wrong length is an error. -/
def writeOctetString (b : List Nat) (n : Nat) : Except Err (List Nat) :=
  if b.length = n then .ok b
  else .error (.plainError "Invalid length of octet string")

/-- Modelled from the spec: the Reader fails with a parse error on
truncation or on a VarUInt length byte above 0x7F. -/
def readVarUInt : List Nat → Except Err (Nat × List Nat)
  | [] => .error (.parseError "past end of buffer")
  | lenByte :: rest =>
    if 127 < lenByte then .error (.parseError "varuint too long")
    else if rest.length < lenByte then .error (.parseError "past end of buffer")
    else .ok (ofBEBytes (rest.take lenByte), rest.drop lenByte)

/-- Modelled from the spec: read a VarOctetString (length as VarUInt, then
that many bytes), failing with a parse error on truncation. -/
def readVarOctetString (input : List Nat) : Except Err (List Nat × List Nat) :=
  match readVarUInt input with
  | .error e => .error e
  | .ok (n, rest) =>
    if rest.length < n then .error (.parseError "past end of buffer")
    else .ok (rest.take n, rest.drop n)

/-- Modelled from the spec: read a fixed-size octet string of `n` bytes,
failing with a parse error on truncation. -/
def readOctetString (n : Nat) (input : List Nat) : Except Err (List Nat × List Nat) :=
  if input.length < n then .error (.parseError "past end of buffer")
  else .ok (input.take n, input.drop n)

/-! ## RSA-SHA-256 (`src/types/rsa-sha256.js`) -/

/-- The fields of an `RsaSha256` fulfillment object; the constructor sets
both to `null`. -/
structure RsaSha256 where
  modulus : Option (List Nat)
  signature : Option (List Nat)
deriving DecidableEq, Repr

namespace RsaSha256

/-- `new RsaSha256()`: both fields start out `null`. -/
def init : RsaSha256 := ⟨none, none⟩

/-- `setPublicModulus`: rejects a leading zero byte, then a length outside
[128, 512], and only then assigns the field. The returned state is the
object after the call: unchanged whenever an error is thrown, because the
assignment is the final statement. -/
def setPublicModulus (f : RsaSha256) (m : List Nat) : RsaSha256 × Option Err :=
  if m.head? = some 0 then
    (f, some (.plainError "Modulus may not contain leading zeros"))
  else if 512 < m.length ∨ m.length < 128 then
    (f, some (.plainError "Modulus must be between 128 bytes and 512 bytes"))
  else
    ({ f with modulus := some m }, none)

/-- `setSignature`: stores the buffer unconditionally (the only check in the
source is that the argument is a Buffer, which the embedding types away). -/
def setSignature (f : RsaSha256) (s : List Nat) : RsaSha256 :=
  { f with signature := some s }

/-- `writeCommonHeader`: a modulus is required; the header is the modulus as
a VarOctetString. -/
def writeCommonHeader (f : RsaSha256) : Except Err (List Nat) :=
  match f.modulus with
  | none => .error (.missingData "Requires a public modulus")
  | some m => .ok (writeVarOctetString m)

/-- `writeHashPayload` delegates to `writeCommonHeader`. -/
def writeHashPayload (f : RsaSha256) : Except Err (List Nat) :=
  f.writeCommonHeader

/-- `parsePayload`: read a VarOctetString and pass it to `setPublicModulus`,
then read a VarOctetString and pass it to `setSignature`. Returns the
populated object and the unread remainder of the input. -/
def parsePayload (f : RsaSha256) (input : List Nat) :
    Except Err (RsaSha256 × List Nat) :=
  match readVarOctetString input with
  | .error e => .error e
  | .ok (m, r1) =>
    match f.setPublicModulus m with
    | (_, some e) => .error e
    | (f1, none) =>
      match readVarOctetString r1 with
      | .error e => .error e
      | .ok (s, r2) => .ok (f1.setSignature s, r2)

/-- `writePayload`: a signature is required; the payload is the common
header followed by the signature as a VarOctetString. -/
def writePayload (f : RsaSha256) : Except Err (List Nat) :=
  match f.signature with
  | none => .error (.missingData "Requires a signature")
  | some s =>
    match f.writeCommonHeader with
    | .error e => .error e
    | .ok header => .ok (header ++ writeVarOctetString s)

/-- `calculateMaxFulfillmentLength`: a modulus is required; the predictor
then receives the common header (the modulus as a VarOctetString) and,
as the signature placeholder, the modulus again as a VarOctetString. -/
def calculateMaxFulfillmentLength (f : RsaSha256) : Except Err Nat :=
  match f.modulus with
  | none => .error (.missingData "Requires a public modulus")
  | some m => .ok (predictVarOctetString m + predictVarOctetString m)

end RsaSha256

/-- Modelled from the spec: the result of BER-parsing an RSA private key
(`src/util/pem.js` is outside `src/`): the modulus bytes `n` and the public
exponent `e`. -/
structure RsaPrivateKey where
  n : List Nat
  e : Nat
deriving DecidableEq, Repr

/-- Modelled from the spec: `pem.modulusFromPrivateKey` extracts the `n`
integer from the parsed private key structure. -/
def modulusFromPrivateKey (k : RsaPrivateKey) : List Nat := k.n

/-- Modelled from the spec: `rsa.sign` computes an RSA-PSS signature with
public exponent fixed at 65537; implementations must reject keys with a
different exponent. The raw padding computation is a black-box primitive
and is taken as a parameter. -/
def rsaSign (pssRaw : RsaPrivateKey → List Nat → List Nat)
    (key : RsaPrivateKey) (message : List Nat) : Except Err (List Nat) :=
  if key.e = 65537 then .ok (pssRaw key message)
  else .error (.plainError "Unsupported public exponent")

namespace RsaSha256

/-- `sign`: when the modulus is unset, extract it from the private key and
pass it through `setPublicModulus` first; then store the RSA-PSS signature.
A thrown error leaves the state as mutated so far (the modulus may already
have been set when `rsa.sign` rejects the key). -/
def sign (pssRaw : RsaPrivateKey → List Nat → List Nat)
    (f : RsaSha256) (message : List Nat) (privateKey : RsaPrivateKey) :
    RsaSha256 × Option Err :=
  let step1 :=
    if f.modulus = none then f.setPublicModulus (modulusFromPrivateKey privateKey)
    else (f, none)
  match step1 with
  | (_, some e) => (f, some e)
  | (f1, none) =>
    match rsaSign pssRaw privateKey message with
    | .error e => (f1, some e)
    | .ok s => ({ f1 with signature := some s }, none)

/-- `validate`: run the RSA-PSS verification primitive (modelled from the
spec as a black-box parameter receiving exactly what the source passes:
the possibly-null modulus, the message, the possibly-null signature) and
throw a ValidationError unless it returns true. -/
def validate (pssVerify : Option (List Nat) → List Nat → Option (List Nat) → Bool)
    (f : RsaSha256) (message : List Nat) : Except Err Bool :=
  if pssVerify f.modulus message f.signature then .ok true
  else .error (.validationError "Invalid RSA signature")

end RsaSha256

/-! ## SHA-512 and the Ed25519 primitive, modelled from the spec

The source delegates to the tweetnacl / native ed25519 libraries, which are
dependencies outside `src/`; the spec says `sign` computes pure Ed25519.
The functions below are pure Ed25519 (and its SHA-512 subroutine) over
`List Nat` byte strings withstanding kernel evaluation. -/

/-- Big-endian byte string of `n` padded on the left to `width` bytes. -/
def toBEFixed (width n : Nat) : List Nat :=
  List.replicate (width - (beBytes n).length) 0 ++ beBytes n

/-- Little-endian byte string of `n` in exactly `width` bytes. -/
def toLEFixed (width n : Nat) : List Nat :=
  (List.range width).map (fun i => n / 256 ^ i % 256)

/-- Value of a little-endian byte string. -/
def ofLEBytes (bs : List Nat) : Nat :=
  bs.foldr (fun b acc => acc * 256 + b) 0

/-- Split a list into chunks of `sz` elements (fuel-driven; `l.length` is
always enough fuel). -/
def chunksAux : Nat → Nat → List Nat → List (List Nat)
  | 0, _, _ => []
  | _ + 1, _, [] => []
  | fuel + 1, sz, l => l.take sz :: chunksAux fuel sz (l.drop sz)

/-- Right rotation of a 64-bit word. -/
def rotr64 (x n : Nat) : Nat := ((x >>> n) ||| (x <<< (64 - n))) % 2 ^ 64

/-- SHA-512 round constants (FIPS 180-4, written in decimal). -/
def sha512K : List Nat :=
  [4794697086780616226, 8158064640168781261, 13096744586834688815,
   16840607885511220156, 4131703408338449720, 6480981068601479193,
   10538285296894168987, 12329834152419229976, 15566598209576043074,
   1334009975649890238, 2608012711638119052, 6128411473006802146,
   8268148722764581231, 9286055187155687089, 11230858885718282805,
   13951009754708518548, 16472876342353939154, 17275323862435702243,
   1135362057144423861, 2597628984639134821, 3308224258029322869,
   5365058923640841347, 6679025012923562964, 8573033837759648693,
   10970295158949994411, 12119686244451234320, 12683024718118986047,
   13788192230050041572, 14330467153632333762, 15395433587784984357,
   489312712824947311, 1452737877330783856, 2861767655752347644,
   3322285676063803686, 5560940570517711597, 5996557281743188959,
   7280758554555802590, 8532644243296465576, 9350256976987008742,
   10552545826968843579, 11727347734174303076, 12113106623233404929,
   14000437183269869457, 14369950271660146224, 15101387698204529176,
   15463397548674623760, 17586052441742319658, 1182934255886127544,
   1847814050463011016, 2177327727835720531, 2830643537854262169,
   3796741975233480872, 4115178125766777443, 5681478168544905931,
   6601373596472566643, 7507060721942968483, 8399075790359081724,
   8693463985226723168, 9568029438360202098, 10144078919501101548,
   10430055236837252648, 11840083180663258601, 13761210420658862357,
   14299343276471374635, 14566680578165727644, 15097957966210449927,
   16922976911328602910, 17689382322260857208, 500013540394364858,
   748580250866718886, 1242879168328830382, 1977374033974150939,
   2944078676154940804, 3659926193048069267, 4368137639120453308,
   4836135668995329356, 5532061633213252278, 6448918945643986474,
   6902733635092675308, 7801388544844847127]

/-- SHA-512 initial hash values (written in decimal). -/
def sha512H0 : List Nat :=
  [7640891576956012808, 13503953896175478587, 4354685564936845355,
   11912009170470909681, 5840696475078001361, 11170449401992604703,
   2270897969802886507, 6620516959819538809]

/-- SHA-512 small sigma 0. -/
def sha512s0 (x : Nat) : Nat := rotr64 x 1 ^^^ rotr64 x 8 ^^^ (x >>> 7)

/-- SHA-512 small sigma 1. -/
def sha512s1 (x : Nat) : Nat := rotr64 x 19 ^^^ rotr64 x 61 ^^^ (x >>> 6)

/-- SHA-512 big sigma 0. -/
def sha512S0 (x : Nat) : Nat := rotr64 x 28 ^^^ rotr64 x 34 ^^^ rotr64 x 39

/-- SHA-512 big sigma 1. -/
def sha512S1 (x : Nat) : Nat := rotr64 x 14 ^^^ rotr64 x 18 ^^^ rotr64 x 41

/-- SHA-512 choice function. -/
def sha512Ch (x y z : Nat) : Nat := (x &&& y) ^^^ ((x ^^^ (2 ^ 64 - 1)) &&& z)

/-- SHA-512 majority function. -/
def sha512Maj (x y z : Nat) : Nat := (x &&& y) ^^^ (x &&& z) ^^^ (y &&& z)

/-- The 16 big-endian 64-bit words of a 128-byte block. -/
def toWords64 (bs : List Nat) : List Nat :=
  (chunksAux bs.length 8 bs).map ofBEBytes

/-- Extend 16 schedule words to 80. -/
def sha512Schedule (w16 : List Nat) : List Nat :=
  (List.range 64).foldl
    (fun acc _ =>
      let n := acc.length
      let x := (sha512s1 (acc.getD (n - 2) 0) + acc.getD (n - 7) 0 +
                sha512s0 (acc.getD (n - 15) 0) + acc.getD (n - 16) 0) % 2 ^ 64
      acc ++ [x])
    w16

/-- One SHA-512 compression round over the 8-word working state. -/
def sha512Round (st : List Nat) (kw : Nat × Nat) : List Nat :=
  match st with
  | [a, b, c, d, e, f, g, h] =>
    let t1 := (h + sha512S1 e + sha512Ch e f g + kw.1 + kw.2) % 2 ^ 64
    let t2 := (sha512S0 a + sha512Maj a b c) % 2 ^ 64
    [(t1 + t2) % 2 ^ 64, a, b, c, (d + t1) % 2 ^ 64, e, f, g]
  | _ => st

/-- Process one 128-byte block. -/
def sha512Block (h : List Nat) (block : List Nat) : List Nat :=
  let w := sha512Schedule (toWords64 block)
  let st := (sha512K.zip w).foldl sha512Round h
  (h.zip st).map (fun p => (p.1 + p.2) % 2 ^ 64)

/-- SHA-512 of a byte string. -/
def sha512 (msg : List Nat) : List Nat :=
  let L := msg.length
  let zeros := (128 - (L + 17) % 128) % 128
  let padded := msg ++ 0x80 :: List.replicate zeros 0 ++ toBEFixed 16 (L * 8)
  let blocks := chunksAux padded.length 128 padded
  (blocks.foldl sha512Block sha512H0).foldr (fun w acc => toBEFixed 8 w ++ acc) []

/-- The field prime 2^255 - 19. -/
def edP : Nat := 2 ^ 255 - 19

/-- The group order 2^252 + 27742317777372353535851937790883648493. -/
def edL : Nat := 2 ^ 252 + 27742317777372353535851937790883648493

/-- The curve constant d = -121665/121666 mod p. -/
def edD : Nat :=
  37095705934669439343138083508754565189542113879843219016388785533085940283555

/-- Field addition mod p. -/
def fadd (a b : Nat) : Nat := (a + b) % edP

/-- Field subtraction mod p (operands are kept reduced below p). -/
def fsub (a b : Nat) : Nat := (a + edP - b) % edP

/-- Field multiplication mod p. -/
def fmul (a b : Nat) : Nat := a * b % edP

/-- Fuel-driven square-and-multiply exponentiation mod p. -/
def fpowAux : Nat → Nat → Nat → Nat → Nat
  | 0, _, _, acc => acc
  | fuel + 1, b, e, acc =>
    if e = 0 then acc
    else fpowAux fuel (fmul b b) (e / 2) (if e % 2 = 1 then fmul acc b else acc)

/-- Exponentiation mod p (260 fuel covers every exponent below 2^260). -/
def fpow (b e : Nat) : Nat := fpowAux 260 b e (1 % edP)

/-- Field inverse via Fermat. -/
def finv (a : Nat) : Nat := fpow a (edP - 2)

/-- Twice the curve constant, reduced. -/
def ed2D : Nat := 2 * edD % edP

/-- A point in extended twisted Edwards coordinates (x = X/Z, y = Y/Z,
T = XY/Z). -/
structure EdPoint where
  X : Nat
  Y : Nat
  Z : Nat
  T : Nat
deriving DecidableEq, Repr

/-- The neutral element. -/
def edZero : EdPoint := ⟨0, 1, 1, 0⟩

/-- Unified extended-coordinates point addition (complete for this curve). -/
def edAdd (P Q : EdPoint) : EdPoint :=
  let A := fmul (fsub P.Y P.X) (fsub Q.Y Q.X)
  let B := fmul (fadd P.Y P.X) (fadd Q.Y Q.X)
  let C := fmul (fmul P.T ed2D) Q.T
  let D := fmul (fmul 2 P.Z) Q.Z
  let E := fsub B A
  let F := fsub D C
  let G := fadd D C
  let H := fadd B A
  ⟨fmul E F, fmul G H, fmul F G, fmul E H⟩

/-- Fuel-driven double-and-add scalar multiplication. -/
def edScalarMulAux : Nat → Nat → EdPoint → EdPoint → EdPoint
  | 0, _, _, acc => acc
  | fuel + 1, k, P, acc =>
    if k = 0 then acc
    else edScalarMulAux fuel (k / 2) (edAdd P P)
      (if k % 2 = 1 then edAdd acc P else acc)

/-- Scalar multiplication (260 fuel covers every scalar below 2^260). -/
def edScalarMul (k : Nat) (P : EdPoint) : EdPoint :=
  edScalarMulAux 260 k P edZero

/-- x coordinate of the base point. -/
def edBX : Nat :=
  15112221349535400772501151409588531511454012693041857206046113283949847762202

/-- y coordinate of the base point. -/
def edBY : Nat :=
  46316835694926478169428394003475163141307993866256225615783033603165251855960

/-- The base point in extended coordinates. -/
def edB : EdPoint := ⟨edBX, edBY, 1, fmul edBX edBY⟩

/-- Compress a point to its 32-byte encoding: the y coordinate in little
endian with the parity of x in the top bit. -/
def edCompress (P : EdPoint) : List Nat :=
  let zinv := finv P.Z
  let x := fmul P.X zinv
  let y := fmul P.Y zinv
  toLEFixed 32 (y + x % 2 * 2 ^ 255)

/-- Clamp the low 32 bytes of the SHA-512 of the seed into a secret scalar:
clear the low three bits and bit 255, set bit 254. -/
def edClampScalar (h32 : List Nat) : Nat :=
  ofLEBytes h32 % 2 ^ 254 / 8 * 8 + 2 ^ 254

/-- The secret scalar derived from a 32-byte seed. -/
def edSecretScalar (seed : List Nat) : Nat :=
  edClampScalar ((sha512 seed).take 32)

/-- The 32-byte public key of a seed. -/
def edPublicKey (seed : List Nat) : List Nat :=
  edCompress (edScalarMul (edSecretScalar seed) edB)

/-- Modelled from the spec: pure Ed25519 detached signature of `message`
under the 32-byte `seed` (both the tweetnacl path and the optional native
path of the source compute exactly this). -/
def edSignDetached (seed message : List Nat) : List Nat :=
  let h := sha512 seed
  let s := edClampScalar (h.take 32)
  let pk := edCompress (edScalarMul s edB)
  let r := ofLEBytes (sha512 (h.drop 32 ++ message)) % edL
  let Rb := edCompress (edScalarMul r edB)
  let k := ofLEBytes (sha512 (Rb ++ pk ++ message)) % edL
  Rb ++ toLEFixed 32 ((r + k * s) % edL)

/-- The square root of -1 mod p used during decompression. -/
def edSqrtM1 : Nat := fpow 2 ((edP - 1) / 4)

/-- Decompress a 32-byte point encoding; `none` when the encoding names no
curve point. -/
def edDecompress (bs : List Nat) : Option EdPoint :=
  if bs.length ≠ 32 then none else
  let v := ofLEBytes bs
  let y := v % 2 ^ 255
  let sign := v / 2 ^ 255
  if edP ≤ y then none else
  let u := fsub (fmul y y) 1
  let w := fadd (fmul edD (fmul y y)) 1
  let xx := fmul u (finv w)
  let x0 := fpow xx ((edP + 3) / 8)
  let x1 :=
    if fmul x0 x0 = xx then some x0
    else if fmul x0 x0 = fsub 0 xx then some (fmul x0 edSqrtM1)
    else none
  match x1 with
  | none => none
  | some x2 =>
    if x2 = 0 ∧ sign = 1 then none
    else
      let x3 := if x2 % 2 ≠ sign then (edP - x2) % edP else x2
      some ⟨x3, y, 1, fmul x3 y⟩

/-- Modelled from the spec: pure Ed25519 verification of a detached
64-byte signature against a message and a 32-byte public key. -/
def edVerifyDetached (message signature publicKey : List Nat) : Bool :=
  if signature.length ≠ 64 then false else
  match edDecompress publicKey, edDecompress (signature.take 32) with
  | some A, some R =>
    let S := ofLEBytes (signature.drop 32)
    if edL ≤ S then false else
    let k := ofLEBytes (sha512 (signature.take 32 ++ publicKey ++ message)) % edL
    edCompress (edScalarMul S edB) == edCompress (edAdd R (edScalarMul k A))
  | _, _ => false

/-! ## Ed25519 (`src/types/ed25519.js`) -/

/-- The fields of an `Ed25519` fulfillment object; the constructor sets both
to `null`. -/
structure Ed25519 where
  publicKey : Option (List Nat)
  signature : Option (List Nat)
deriving DecidableEq, Repr

namespace Ed25519

/-- `Ed25519.PUBKEY_LENGTH`. -/
def PUBKEY_LENGTH : Nat := 32

/-- `Ed25519.SIGNATURE_LENGTH`. -/
def SIGNATURE_LENGTH : Nat := 64

/-- `Ed25519.FULFILLMENT_LENGTH = PUBKEY_LENGTH + SIGNATURE_LENGTH`. -/
def FULFILLMENT_LENGTH : Nat := PUBKEY_LENGTH + SIGNATURE_LENGTH

/-- `Ed25519.TYPE_ID`. -/
def TYPE_ID : Nat := 4

/-- `Ed25519.FEATURE_BITMASK`. -/
def FEATURE_BITMASK : Nat := 0x20

/-- `new Ed25519()`: both fields start out `null`. -/
def init : Ed25519 := ⟨none, none⟩

/-- `setPublicKey`: the key must be exactly 32 bytes; the state is unchanged
when the error is thrown. -/
def setPublicKey (f : Ed25519) (publicKey : List Nat) : Ed25519 × Option Err :=
  if publicKey.length ≠ 32 then
    (f, some (.plainError "Public key must be 32 bytes"))
  else
    ({ f with publicKey := some publicKey }, none)

/-- `setSignature`: the signature must be exactly 64 bytes; the state is
unchanged when the error is thrown. -/
def setSignature (f : Ed25519) (signature : List Nat) : Ed25519 × Option Err :=
  if signature.length ≠ 64 then
    (f, some (.plainError "Signature must be 64 bytes"))
  else
    ({ f with signature := some signature }, none)

/-- `generateHash`: a public key is required, and is returned directly with
no hashing applied. -/
def generateHash (f : Ed25519) : Except Err (List Nat) :=
  match f.publicKey with
  | none => .error (.missingData "Requires a public key")
  | some pk => .ok pk

/-- `parsePayload`: a fixed 32-byte octet string into `setPublicKey`, then
a fixed 64-byte octet string into `setSignature`. Returns the populated
object and the unread remainder of the input. -/
def parsePayload (f : Ed25519) (input : List Nat) :
    Except Err (Ed25519 × List Nat) :=
  match readOctetString PUBKEY_LENGTH input with
  | .error e => .error e
  | .ok (pk, r1) =>
    match f.setPublicKey pk with
    | (_, some e) => .error e
    | (f1, none) =>
      match readOctetString SIGNATURE_LENGTH r1 with
      | .error e => .error e
      | .ok (s, r2) =>
        match f1.setSignature s with
        | (_, some e) => .error e
        | (f2, none) => .ok (f2, r2)

/-- `writePayload`: the public key as a fixed 32-byte octet string followed
by the signature as a fixed 64-byte octet string. The source passes the
fields (possibly null) straight to the writer; a null field fails inside
the writer, which the embedding reports as a type error. -/
def writePayload (f : Ed25519) : Except Err (List Nat) :=
  match f.publicKey, f.signature with
  | some pk, some s =>
    match writeOctetString pk PUBKEY_LENGTH with
    | .error e => .error e
    | .ok a =>
      match writeOctetString s SIGNATURE_LENGTH with
      | .error e => .error e
      | .ok b => .ok (a ++ b)
  | _, _ => .error (.typeError "writeOctetString requires a buffer")

/-- `calculateMaxFulfillmentLength`: returns the constant
`FULFILLMENT_LENGTH` with no precondition at all. -/
def calculateMaxFulfillmentLength (_ : Ed25519) : Nat :=
  FULFILLMENT_LENGTH

/-- `sign`: the private key must be a 32-byte seed; derive the key pair,
store the public key through `setPublicKey`, then store the detached
signature. -/
def sign (f : Ed25519) (message privateKey : List Nat) : Ed25519 × Option Err :=
  if privateKey.length ≠ 32 then
    (f, some (.plainError "Private key must be 32 bytes"))
  else
    match f.setPublicKey (edPublicKey privateKey) with
    | (_, some e) => (f, some e)
    | (f1, none) =>
      ({ f1 with signature := some (edSignDetached privateKey message) }, none)

/-- `validate`: run the Ed25519 verification primitive on the stored
signature and public key (a still-null field reaches the primitive as an
empty buffer, which can never verify) and throw a ValidationError unless
it returns true. -/
def validate (f : Ed25519) (message : List Nat) : Except Err Bool :=
  if edVerifyDetached message (f.signature.getD []) (f.publicKey.getD []) then
    .ok true
  else .error (.validationError "Invalid ed25519 signature")

end Ed25519

/-! ## URI codec and high-level API, modelled from the spec
(`src/lib/condition.js`, `src/lib/fulfillment.js` and `src/index.js` are
outside `src/`). -/

/-- The base64url alphabet character of a 6-bit value. -/
def b64Char (n : Nat) : Char :=
  if n < 26 then Char.ofNat (65 + n)
  else if n < 52 then Char.ofNat (97 + n - 26)
  else if n < 62 then Char.ofNat (48 + n - 52)
  else if n = 62 then Char.ofNat 45
  else Char.ofNat 95

/-- Modelled from the spec: unpadded base64url encoding of a byte string. -/
def b64Encode : List Nat → List Char
  | b0 :: b1 :: b2 :: rest =>
    let n := b0 * 65536 + b1 * 256 + b2
    b64Char (n / 262144) :: b64Char (n / 4096 % 64) :: b64Char (n / 64 % 64) ::
      b64Char (n % 64) :: b64Encode rest
  | [b0, b1] =>
    let n := b0 * 1024 + b1 * 4
    [b64Char (n / 4096), b64Char (n / 64 % 64), b64Char (n % 64)]
  | [b0] => [b64Char (b0 / 4), b64Char (b0 % 4 * 16)]
  | [] => []

/-- The 6-bit value of a base64url alphabet character. -/
def b64Value (c : Char) : Option Nat :=
  let n := c.toNat
  if 65 ≤ n ∧ n ≤ 90 then some (n - 65)
  else if 97 ≤ n ∧ n ≤ 122 then some (n - 97 + 26)
  else if 48 ≤ n ∧ n ≤ 57 then some (n - 48 + 52)
  else if n = 45 then some 62
  else if n = 95 then some 63
  else none

/-- Modelled from the spec: unpadded base64url decoding; `none` on an
alphabet violation or an impossible length. -/
def b64Decode : List Char → Option (List Nat)
  | c0 :: c1 :: c2 :: c3 :: rest => do
    let v0 ← b64Value c0
    let v1 ← b64Value c1
    let v2 ← b64Value c2
    let v3 ← b64Value c3
    let n := ((v0 * 64 + v1) * 64 + v2) * 64 + v3
    let tail ← b64Decode rest
    pure (n / 65536 :: n / 256 % 256 :: n % 256 :: tail)
  | [c0, c1, c2] => do
    let v0 ← b64Value c0
    let v1 ← b64Value c1
    let v2 ← b64Value c2
    pure [v0 * 4 + v1 / 16, v1 % 16 * 16 + v2 / 4]
  | [c0, c1] => do
    let v0 ← b64Value c0
    let v1 ← b64Value c1
    pure [v0 * 4 + v1 / 16]
  | [_] => none
  | [] => some []

/-- The lowercase digit character of a value below 16. -/
def digitChar (n : Nat) : Char :=
  if n < 10 then Char.ofNat (48 + n) else Char.ofNat (87 + n)

/-- Digits of `n` in the given base (fuel-driven; `n` is enough fuel). -/
def natToBaseAux : Nat → Nat → Nat → List Char
  | 0, _, _ => []
  | fuel + 1, base, n =>
    if n = 0 then [] else natToBaseAux fuel base (n / base) ++ [digitChar (n % base)]

/-- Digit string of `n` in the given base, lowercase, no leading zeros. -/
def natToBase (base n : Nat) : List Char :=
  if n = 0 then [Char.ofNat 48] else natToBaseAux n base n

/-- Lowercase decimal string. -/
def decimalStr (n : Nat) : String := String.mk (natToBase 10 n)

/-- Lowercase hexadecimal string. -/
def hexStr (n : Nat) : String := String.mk (natToBase 16 n)

/-- The value of a hex digit character. -/
def hexDigitValue (c : Char) : Option Nat :=
  let n := c.toNat
  if 48 ≤ n ∧ n ≤ 57 then some (n - 48)
  else if 97 ≤ n ∧ n ≤ 102 then some (n - 97 + 10)
  else none

/-- Parse a nonempty digit string in the given base. -/
def parseBase (base : Nat) (cs : List Char) : Option Nat :=
  match cs with
  | [] => none
  | _ =>
    cs.foldl
      (fun acc c =>
        match acc, (if base = 16 then hexDigitValue c
                    else if c.toNat < 48 ∨ 57 < c.toNat then none
                    else some (c.toNat - 48)) with
        | some a, some v => some (a * base + v)
        | _, _ => none)
      (some 0)

/-- Split a character list at colons. -/
def splitOnColonAux : List Char → List Char → List (List Char)
  | [], acc => [acc.reverse]
  | c :: rest, acc =>
    if c = ':' then acc.reverse :: splitOnColonAux rest []
    else splitOnColonAux rest (c :: acc)

/-- The colon-separated fields of a URI. -/
def splitOnColon (cs : List Char) : List (List Char) := splitOnColonAux cs []

/-- Modelled from the spec: a condition value is the immutable tuple of
type id, feature bitmask, hash and maximum fulfillment length. -/
structure Condition where
  typeId : Nat
  bitmask : Nat
  hash : List Nat
  maxFulfillmentLength : Nat
deriving DecidableEq, Repr

namespace Ed25519

/-- Modelled from the spec: `getCondition` assembles the condition tuple
from the type id, the feature bitmask, `generateHash` and
`calculateMaxFulfillmentLength`. -/
def getCondition (f : Ed25519) : Except Err Condition :=
  match f.generateHash with
  | .error e => .error e
  | .ok h => .ok ⟨TYPE_ID, FEATURE_BITMASK, h, f.calculateMaxFulfillmentLength⟩

/-- Modelled from the spec: `serializeUri` emits
`cf:<hex type id>:<unpadded base64url of the payload>`. -/
def serializeUri (f : Ed25519) : Except Err String :=
  match f.writePayload with
  | .error e => .error e
  | .ok payload =>
    .ok ("cf:" ++ hexStr TYPE_ID ++ ":" ++ String.mk (b64Encode payload))

/-- Modelled from the spec: the condition URI is
`cc:<hex type id>:<hex bitmask>:<unpadded base64url of the hash>:<decimal
max fulfillment length>`. -/
def getConditionUri (f : Ed25519) : Except Err String :=
  match f.getCondition with
  | .error e => .error e
  | .ok c =>
    .ok ("cc:" ++ hexStr c.typeId ++ ":" ++ hexStr c.bitmask ++ ":" ++
      String.mk (b64Encode c.hash) ++ ":" ++ decimalStr c.maxFulfillmentLength)

end Ed25519

/-- Modelled from the spec: parse a `cc:` URI into a condition tuple;
parse errors on a malformed shape. -/
def parseConditionUri (uri : String) : Except Err Condition :=
  match splitOnColon uri.data with
  | [proto, typeHex, maskHex, hashB64, maxDec] =>
    if proto ≠ ['c', 'c'] then
      .error (.parseError "Serialized condition must start with cc")
    else
      match parseBase 16 typeHex, parseBase 16 maskHex,
            b64Decode hashB64, parseBase 10 maxDec with
      | some t, some m, some h, some mx => .ok ⟨t, m, h, mx⟩
      | _, _, _, _ => .error (.parseError "Piece of condition URI is invalid")
  | _ => .error (.parseError "Invalid condition format")

/-- Modelled from the spec: parse a `cf:` URI, dispatch on the type id and
hand the payload to the type. Only type 4 (Ed25519) is dispatched here;
this model covers that single registry entry. -/
def parseEd25519FulfillmentUri (uri : String) : Except Err Ed25519 :=
  match splitOnColon uri.data with
  | [proto, typeHex, payloadB64] =>
    if proto ≠ ['c', 'f'] then
      .error (.parseError "Serialized fulfillment must start with cf")
    else
      match parseBase 16 typeHex with
      | some 4 =>
        match b64Decode payloadB64 with
        | none => .error (.parseError "Invalid base64url")
        | some payload =>
          match Ed25519.init.parsePayload payload with
          | .error e => .error e
          | .ok (f, rest) =>
            if rest = [] then .ok f
            else .error (.parseError "Fulfillment payload has trailing bytes")
      | _ => .error (.parseError "Unsupported type")
  | _ => .error (.parseError "Invalid fulfillment format")

/-- Modelled from the spec: `validateFulfillment(f_uri, c_uri, message)`
parses both URIs, requires the fulfillment's derived condition to equal the
given condition, requires the serialized fulfillment to fit inside the
committed maximum length, and then runs `validate(message)`. This model
covers the single registry entry for type 4 (Ed25519). -/
def validateFulfillmentEd (fUri cUri : String) (message : List Nat) :
    Except Err Bool :=
  match parseEd25519FulfillmentUri fUri with
  | .error e => .error e
  | .ok f =>
    match parseConditionUri cUri with
    | .error e => .error e
    | .ok cond =>
      match f.getCondition with
      | .error e => .error e
      | .ok fcond =>
        if fcond ≠ cond then
          .error (.plainError "Fulfillment does not match condition")
        else
          match f.writePayload with
          | .error e => .error e
          | .ok payload =>
            if cond.maxFulfillmentLength < payload.length then
              .error (.plainError "Fulfillment is too long")
            else f.validate message

/-- Equality of `Except` results is decidable when both components are. -/
instance {ε α : Type} [DecidableEq ε] [DecidableEq α] : DecidableEq (Except ε α) :=
  fun a b =>
  match a, b with
  | .ok x, .ok y =>
    if h : x = y then .isTrue (by rw [h])
    else .isFalse (fun hc => h (Except.ok.inj hc))
  | .error x, .error y =>
    if h : x = y then .isTrue (by rw [h])
    else .isFalse (fun hc => h (Except.error.inj hc))
  | .ok _, .error _ => .isFalse (fun hc => Except.noConfusion hc)
  | .error _, .ok _ => .isFalse (fun hc => Except.noConfusion hc)

/-! ## Helper lemmas about the OER primitives -/

theorem ofBEBytes_append_single (xs : List Nat) (d : Nat) :
    ofBEBytes (xs ++ [d]) = 256 * ofBEBytes xs + d := by
  induction xs with
  | nil => simp [ofBEBytes]
  | cons b bs ih =>
    simp only [List.cons_append, ofBEBytes, ih, List.append_eq, List.length_append,
      List.length_cons, List.length_nil]
    ring

theorem ofBEBytes_beBytesAux (fuel n : Nat) (h : n ≤ fuel) :
    ofBEBytes (beBytesAux fuel n) = n := by
  induction fuel generalizing n with
  | zero =>
    simp only [beBytesAux, ofBEBytes]
    omega
  | succ k ih =>
    by_cases h0 : n = 0
    · simp [beBytesAux, h0, ofBEBytes]
    · rw [beBytesAux, if_neg h0, ofBEBytes_append_single, ih (n / 256) (by omega)]
      omega

theorem ofBEBytes_beBytes (n : Nat) : ofBEBytes (beBytes n) = n :=
  ofBEBytes_beBytesAux n n le_rfl

theorem beBytesAux_length_le (fuel n k : Nat) (h : n < 256 ^ k) :
    (beBytesAux fuel n).length ≤ k := by
  induction fuel generalizing n k with
  | zero => simp [beBytesAux]
  | succ fl ih =>
    by_cases h0 : n = 0
    · simp [beBytesAux, h0]
    · cases k with
      | zero => simp at h; omega
      | succ k2 =>
        rw [beBytesAux, if_neg h0]
        have hdiv : n / 256 < 256 ^ k2 := by
          rw [Nat.div_lt_iff_lt_mul (by norm_num)]
          calc n < 256 ^ (k2 + 1) := h
          _ = 256 ^ k2 * 256 := by ring
        have := ih (n / 256) k2 hdiv
        simp only [List.length_append, List.length_cons, List.length_nil]
        omega

theorem beBytes_length_le (n k : Nat) (h : n < 256 ^ k) :
    (beBytes n).length ≤ k :=
  beBytesAux_length_le n n k h

theorem readVarUInt_writeVarUInt (n : Nat) (rest : List Nat)
    (h : (beBytes n).length ≤ 127) :
    readVarUInt (writeVarUInt n ++ rest) = .ok (n, rest) := by
  show readVarUInt ((beBytes n).length :: (beBytes n ++ rest)) = .ok (n, rest)
  rw [readVarUInt]
  rw [if_neg (by omega), if_neg (by simp [List.length_append])]
  rw [List.take_left, List.drop_left, ofBEBytes_beBytes]

theorem readVarOctetString_writeVarOctetString (b rest : List Nat)
    (h : (beBytes b.length).length ≤ 127) :
    readVarOctetString (writeVarOctetString b ++ rest) = .ok (b, rest) := by
  rw [readVarOctetString, writeVarOctetString, List.append_assoc,
    readVarUInt_writeVarUInt b.length (b ++ rest) h]
  simp only [List.length_append]
  rw [if_neg (by omega)]
  rw [List.take_left, List.drop_left]

theorem length_writeVarOctetString (b : List Nat) :
    (writeVarOctetString b).length = 1 + (beBytes b.length).length + b.length := by
  simp [writeVarOctetString, writeVarUInt]
  omega

/-! ## Helper lemmas about the setters -/

theorem RsaSha256.setPublicModulus_eq_ok (f f1 : RsaSha256) (m : List Nat) :
    f.setPublicModulus m = (f1, none) ↔
      (m.head? ≠ some 0 ∧ 128 ≤ m.length ∧ m.length ≤ 512 ∧
        f1 = { f with modulus := some m }) := by
  unfold RsaSha256.setPublicModulus
  constructor
  · intro h
    by_cases h0 : m.head? = some 0
    · simp [h0] at h
    · by_cases h1 : 512 < m.length ∨ m.length < 128
      · simp [h0, h1] at h
      · push_neg at h1
        simp only [if_neg h0, if_neg (by omega : ¬(512 < m.length ∨ m.length < 128)),
          Prod.mk.injEq] at h
        exact ⟨h0, by omega, by omega, h.1.symm⟩
  · rintro ⟨h0, h1, h2, rfl⟩
    rw [if_neg h0, if_neg (by omega)]

theorem Ed25519.setPublicKey_eq_ok (f f1 : Ed25519) (k : List Nat) :
    f.setPublicKey k = (f1, none) ↔
      (k.length = 32 ∧ f1 = { f with publicKey := some k }) := by
  unfold Ed25519.setPublicKey
  by_cases h : k.length = 32
  · simp [h, eq_comm]
  · simp [h]

theorem Ed25519.setSignature_eq_ok (f f1 : Ed25519) (s : List Nat) :
    f.setSignature s = (f1, none) ↔
      (s.length = 64 ∧ f1 = { f with signature := some s }) := by
  unfold Ed25519.setSignature
  by_cases h : s.length = 64
  · simp [h, eq_comm]
  · simp [h]

/-- Parsing the bytes written for a valid modulus and any supported-size
signature repopulates exactly those two fields. -/
theorem rsa_parse_write_roundtrip (m s : List Nat)
    (h0 : m.head? ≠ some 0) (h1 : 128 ≤ m.length) (h2 : m.length ≤ 512)
    (hs : s.length ≤ 65535) :
    RsaSha256.init.parsePayload (writeVarOctetString m ++ writeVarOctetString s) =
      .ok (⟨some m, some s⟩, []) := by
  have hmb : (beBytes m.length).length ≤ 2 :=
    beBytes_length_le m.length 2 (by simp only [show (256 : Nat) ^ 2 = 65536 from rfl]; omega)
  have hsb : (beBytes s.length).length ≤ 2 :=
    beBytes_length_le s.length 2 (by simp only [show (256 : Nat) ^ 2 = 65536 from rfl]; omega)
  have hset : RsaSha256.init.setPublicModulus m = (RsaSha256.mk (some m) none, none) :=
    (RsaSha256.setPublicModulus_eq_ok RsaSha256.init (RsaSha256.mk (some m) none) m).2
      ⟨h0, h1, h2, rfl⟩
  have hrd1 : readVarOctetString (writeVarOctetString m ++ writeVarOctetString s) =
      .ok (m, writeVarOctetString s) :=
    readVarOctetString_writeVarOctetString m _ (by omega)
  have hrd2 : readVarOctetString (writeVarOctetString s) = .ok (s, []) := by
    have h := readVarOctetString_writeVarOctetString s [] (by omega)
    rwa [List.append_nil] at h
  simp only [RsaSha256.parsePayload, hrd1, hset, hrd2, RsaSha256.setSignature]

/-- Parsing the bytes written for a 32-byte public key and a 64-byte
signature repopulates exactly those two fields. -/
theorem ed_parse_write_roundtrip (pk sg : List Nat)
    (hpk : pk.length = 32) (hsg : sg.length = 64) :
    Ed25519.init.parsePayload (pk ++ sg) = .ok (⟨some pk, some sg⟩, []) := by
  have hr1 : readOctetString Ed25519.PUBKEY_LENGTH (pk ++ sg) = .ok (pk, sg) := by
    unfold readOctetString Ed25519.PUBKEY_LENGTH
    rw [if_neg (by simp only [List.length_append]; omega)]
    rw [← hpk, List.take_left, List.drop_left]
  have hr2 : readOctetString Ed25519.SIGNATURE_LENGTH sg = .ok (sg, []) := by
    unfold readOctetString Ed25519.SIGNATURE_LENGTH
    rw [if_neg (by omega)]
    rw [show (64 : Nat) = sg.length from hsg.symm]
    rw [List.take_length, List.drop_length]
  have hk : Ed25519.init.setPublicKey pk = (Ed25519.mk (some pk) none, none) :=
    (Ed25519.setPublicKey_eq_ok Ed25519.init (Ed25519.mk (some pk) none) pk).2 ⟨hpk, rfl⟩
  have hs2 : (Ed25519.mk (some pk) none).setSignature sg =
      (Ed25519.mk (some pk) (some sg), none) :=
    (Ed25519.setSignature_eq_ok (Ed25519.mk (some pk) none)
      (Ed25519.mk (some pk) (some sg)) sg).2 ⟨hsg, rfl⟩
  simp only [Ed25519.parsePayload, hr1, hk, hr2, hs2]

/-! ## Claim theorems -/

/-- Claim C1: for every RSA-SHA-256 fulfillment whose modulus is set,
`calculateMaxFulfillmentLength` returns the predictor size of writing the
modulus twice as a VarOctetString (once via the common header, once as the
signature placeholder), and this value equals the exact length of the
serialized payload `VarOctetString(modulus) ++ VarOctetString(signature)`
whenever the signature is as long as the modulus. -/
theorem C1_rsa_calculateMaxFulfillmentLength (f : RsaSha256) (m : List Nat)
    (hm : f.modulus = some m) :
    f.calculateMaxFulfillmentLength =
      .ok (predictVarOctetString m + predictVarOctetString m) ∧
    ∀ s, f.signature = some s → s.length = m.length →
      f.writePayload = .ok (writeVarOctetString m ++ writeVarOctetString s) ∧
      (writeVarOctetString m ++ writeVarOctetString s).length =
        predictVarOctetString m + predictVarOctetString m := by
  refine ⟨by simp only [RsaSha256.calculateMaxFulfillmentLength, hm], ?_⟩
  intro s hs hlen
  refine ⟨by simp only [RsaSha256.writePayload, hs, RsaSha256.writeCommonHeader, hm], ?_⟩
  simp only [List.length_append, predictVarOctetString, length_writeVarOctetString, hlen]

/-- Witness for C1 at a concrete 128-byte modulus with an equal-length
signature: the predicted maximum is 260 and the payload is 260 bytes. -/
theorem C1_witness :
    (RsaSha256.mk (some (List.replicate 128 1))
        (some (List.replicate 128 2))).calculateMaxFulfillmentLength = .ok 260 ∧
    (RsaSha256.mk (some (List.replicate 128 1))
        (some (List.replicate 128 2))).writePayload =
      .ok (writeVarOctetString (List.replicate 128 1) ++
        writeVarOctetString (List.replicate 128 2)) ∧
    (writeVarOctetString (List.replicate 128 1) ++
      writeVarOctetString (List.replicate 128 2)).length = 260 := by
  have h := C1_rsa_calculateMaxFulfillmentLength
    (RsaSha256.mk (some (List.replicate 128 1)) (some (List.replicate 128 2)))
    (List.replicate 128 1) rfl
  have h2 := h.2 (List.replicate 128 2) rfl (by decide)
  refine ⟨?_, h2.1, ?_⟩
  · rw [h.1]
    decide
  · rw [h2.2]
    decide

/-- Claim C2 counterexample: `setSignature` performs no length check, so a
populated fulfillment can carry a 1-byte signature next to a 128-byte
modulus; the claimed invariant `signature.length == modulus.length` fails
after `setPublicModulus(replicate 128 1)` followed by `setSignature([1])`. -/
theorem C2_counterexample :
    ((RsaSha256.init.setPublicModulus (List.replicate 128 1)).1.setSignature
        [1]).modulus = some (List.replicate 128 1) ∧
    ((RsaSha256.init.setPublicModulus (List.replicate 128 1)).1.setSignature
        [1]).signature = some [1] ∧
    (RsaSha256.init.setPublicModulus (List.replicate 128 1)).2 = none ∧
    ((RsaSha256.init.setPublicModulus (List.replicate 128 1)).1.setSignature
        [1]).signature.map List.length ≠
      ((RsaSha256.init.setPublicModulus (List.replicate 128 1)).1.setSignature
        [1]).modulus.map List.length := by
  refine ⟨by decide, by decide, by decide, by decide⟩

/-- Claim C2 (amended): the setters store their buffers verbatim and do not
enforce any length relation. After a successful `setPublicModulus(m)`
followed by `setSignature(s)` both fields are set, and the signature length
equals the modulus length exactly when the supplied signature already had
the modulus's length; likewise `parsePayload` accepts a payload whose
signature part has any supported length and stores both fields as read. -/
theorem C2_signature_length_not_enforced (f f1 : RsaSha256) (m s : List Nat)
    (h : f.setPublicModulus m = (f1, none)) :
    (f1.setSignature s).modulus = some m ∧
    (f1.setSignature s).signature = some s ∧
    ((f1.setSignature s).signature.map List.length =
        (f1.setSignature s).modulus.map List.length ↔ s.length = m.length) ∧
    (s.length ≤ 65535 →
      RsaSha256.init.parsePayload
          (writeVarOctetString m ++ writeVarOctetString s) =
        .ok (RsaSha256.mk (some m) (some s), [])) := by
  obtain ⟨h0, h1, h2, rfl⟩ := (RsaSha256.setPublicModulus_eq_ok f f1 m).1 h
  refine ⟨rfl, rfl, by simp [RsaSha256.setSignature], ?_⟩
  intro hs
  exact rsa_parse_write_roundtrip m s h0 h1 h2 hs

/-- Witness for the amended C2: a 128-byte modulus next to a deliberately
1-byte signature, stored without complaint by both the setters and
`parsePayload`. -/
theorem C2_amended_witness :
    ((RsaSha256.mk (some (List.replicate 128 1)) none).setSignature [1]).modulus =
      some (List.replicate 128 1) ∧
    ((RsaSha256.mk (some (List.replicate 128 1)) none).setSignature [1]).signature =
      some [1] ∧
    ¬ ([1].length = (List.replicate 128 1).length) ∧
    RsaSha256.init.parsePayload
        (writeVarOctetString (List.replicate 128 1) ++ writeVarOctetString [1]) =
      .ok (RsaSha256.mk (some (List.replicate 128 1)) (some [1]), []) := by
  have h := C2_signature_length_not_enforced RsaSha256.init
    (RsaSha256.mk (some (List.replicate 128 1)) none) (List.replicate 128 1) [1]
    (by decide)
  exact ⟨h.1, h.2.1, by decide, h.2.2.2 (by decide)⟩

/-- Claim C3: `setPublicModulus(m)` throws exactly when `m` has a leading
zero byte or a length outside [128, 512]; on success it stores `m` and on
failure the object is left unchanged (the thrown state is the receiver). -/
theorem C3_setPublicModulus_spec (f : RsaSha256) (m : List Nat) :
    ((m.head? = some 0 ∨ m.length < 128 ∨ 512 < m.length) →
      (f.setPublicModulus m).1 = f ∧ (f.setPublicModulus m).2 ≠ none) ∧
    (m.head? ≠ some 0 → 128 ≤ m.length → m.length ≤ 512 →
      f.setPublicModulus m = ({ f with modulus := some m }, none)) := by
  constructor
  · intro h
    unfold RsaSha256.setPublicModulus
    by_cases h0 : m.head? = some 0
    · simp [h0]
    · have h1 : 512 < m.length ∨ m.length < 128 := by
        rcases h with h | h | h
        · exact absurd h h0
        · right; exact h
        · left; exact h
      simp [h0, h1]
  · intro h0 h1 h2
    exact (RsaSha256.setPublicModulus_eq_ok f _ m).2 ⟨h0, h1, h2, rfl⟩

/-- Witness for C3: a leading-zero 128-byte buffer is rejected with the
object unchanged, and an all-ones 128-byte buffer is stored. -/
theorem C3_witness :
    ((RsaSha256.init.setPublicModulus (0 :: List.replicate 127 1)).1 =
        RsaSha256.init ∧
      (RsaSha256.init.setPublicModulus (0 :: List.replicate 127 1)).2 ≠ none) ∧
    RsaSha256.init.setPublicModulus (List.replicate 128 1) =
      ({ RsaSha256.init with modulus := some (List.replicate 128 1) }, none) := by
  refine ⟨(C3_setPublicModulus_spec RsaSha256.init _).1 (by decide), ?_⟩
  exact (C3_setPublicModulus_spec RsaSha256.init _).2 (by decide) (by decide) (by decide)

/-- Claim C4: for every Ed25519 fulfillment whose public key was set, the
stored key is exactly 32 bytes, `generateHash` returns that key itself
(no SHA-256 is applied), and `calculateMaxFulfillmentLength` returns the
constant 96 = 32 + 64. -/
theorem C4_ed25519_hash_and_maxlen (f0 f : Ed25519) (k : List Nat)
    (h : f0.setPublicKey k = (f, none)) :
    f.publicKey = some k ∧ k.length = 32 ∧ f.generateHash = .ok k ∧
    f.calculateMaxFulfillmentLength = 96 ∧
    Ed25519.FULFILLMENT_LENGTH =
      Ed25519.PUBKEY_LENGTH + Ed25519.SIGNATURE_LENGTH := by
  obtain ⟨hk, rfl⟩ := (Ed25519.setPublicKey_eq_ok f0 f k).1 h
  exact ⟨rfl, hk, rfl, rfl, rfl⟩

/-- Witness for C4 at a concrete 32-byte key. -/
theorem C4_witness :
    (Ed25519.mk (some (List.replicate 32 7)) none).publicKey =
      some (List.replicate 32 7) ∧
    (List.replicate 32 7).length = 32 ∧
    (Ed25519.mk (some (List.replicate 32 7)) none).generateHash =
      .ok (List.replicate 32 7) ∧
    (Ed25519.mk (some (List.replicate 32 7)) none).calculateMaxFulfillmentLength = 96 ∧
    Ed25519.FULFILLMENT_LENGTH =
      Ed25519.PUBKEY_LENGTH + Ed25519.SIGNATURE_LENGTH :=
  C4_ed25519_hash_and_maxlen Ed25519.init
    (Ed25519.mk (some (List.replicate 32 7)) none) (List.replicate 32 7) (by decide)

/-- Claim C5: writing and re-parsing round-trips. For every RSA-SHA-256
fulfillment with a valid modulus and a supported-size signature,
`writePayload` emits `VarOctetString(modulus) ++ VarOctetString(signature)`
and `parsePayload` of those bytes on a fresh object reconstructs the same
two fields with no input left over; for every Ed25519 fulfillment with a
32-byte public key and 64-byte signature, `writePayload` emits the two
fixed octet strings and `parsePayload` reconstructs the same fields. -/
theorem C5_roundtrip (m s pk sg : List Nat)
    (h0 : m.head? ≠ some 0) (h1 : 128 ≤ m.length) (h2 : m.length ≤ 512)
    (hs : s.length ≤ 65535) (hpk : pk.length = 32) (hsg : sg.length = 64) :
    (RsaSha256.mk (some m) (some s)).writePayload =
      .ok (writeVarOctetString m ++ writeVarOctetString s) ∧
    RsaSha256.init.parsePayload (writeVarOctetString m ++ writeVarOctetString s) =
      .ok (RsaSha256.mk (some m) (some s), []) ∧
    (Ed25519.mk (some pk) (some sg)).writePayload = .ok (pk ++ sg) ∧
    Ed25519.init.parsePayload (pk ++ sg) =
      .ok (Ed25519.mk (some pk) (some sg), []) := by
  refine ⟨?_, rsa_parse_write_roundtrip m s h0 h1 h2 hs, ?_,
    ed_parse_write_roundtrip pk sg hpk hsg⟩
  · simp only [RsaSha256.writePayload, RsaSha256.writeCommonHeader]
  · simp only [Ed25519.writePayload, writeOctetString, Ed25519.PUBKEY_LENGTH,
      Ed25519.SIGNATURE_LENGTH, hpk, hsg, if_pos]

/-- Witness for C5 at a concrete 128-byte modulus, 5-byte signature,
32-byte public key and 64-byte signature. -/
theorem C5_witness :
    (RsaSha256.mk (some (List.replicate 128 3)) (some [9, 9, 9, 9, 9])).writePayload =
      .ok (writeVarOctetString (List.replicate 128 3) ++ writeVarOctetString [9, 9, 9, 9, 9]) ∧
    RsaSha256.init.parsePayload
        (writeVarOctetString (List.replicate 128 3) ++ writeVarOctetString [9, 9, 9, 9, 9]) =
      .ok (RsaSha256.mk (some (List.replicate 128 3)) (some [9, 9, 9, 9, 9]), []) ∧
    (Ed25519.mk (some (List.replicate 32 4)) (some (List.replicate 64 5))).writePayload =
      .ok (List.replicate 32 4 ++ List.replicate 64 5) ∧
    Ed25519.init.parsePayload (List.replicate 32 4 ++ List.replicate 64 5) =
      .ok (Ed25519.mk (some (List.replicate 32 4)) (some (List.replicate 64 5)), []) :=
  C5_roundtrip (List.replicate 128 3) [9, 9, 9, 9, 9]
    (List.replicate 32 4) (List.replicate 64 5)
    (by decide) (by decide) (by decide) (by decide) (by decide) (by decide)

/-- Claim C6: `validate(message)` returns `ok true` exactly when the
RSA-PSS verification primitive accepts the stored modulus, message and
stored signature; whenever the primitive rejects, it throws the
ValidationError for an invalid signature; and it can never return a value
other than `true`. -/
theorem C6_rsa_validate
    (pssVerify : Option (List Nat) → List Nat → Option (List Nat) → Bool)
    (f : RsaSha256) (message : List Nat) :
    (RsaSha256.validate pssVerify f message = .ok true ↔
      pssVerify f.modulus message f.signature = true) ∧
    (pssVerify f.modulus message f.signature = false →
      RsaSha256.validate pssVerify f message =
        .error (.validationError "Invalid RSA signature")) ∧
    (∀ b, RsaSha256.validate pssVerify f message = .ok b → b = true) := by
  unfold RsaSha256.validate
  cases hb : pssVerify f.modulus message f.signature <;> simp [hb]

/-- Witness for C6: a rejecting primitive makes `validate` throw the
ValidationError and an accepting one makes it return `ok true`. -/
theorem C6_witness :
    RsaSha256.validate (fun _ _ _ => false) RsaSha256.init [] =
      .error (.validationError "Invalid RSA signature") ∧
    RsaSha256.validate (fun _ _ _ => true) RsaSha256.init [] = .ok true := by
  refine ⟨(C6_rsa_validate (fun _ _ _ => false) RsaSha256.init []).2.1 rfl, ?_⟩
  exact (C6_rsa_validate (fun _ _ _ => true) RsaSha256.init []).1.mpr rfl

/-- Claim C7: `sign` with a private key whose public exponent differs from
65537 throws and stores no signature; and whenever the modulus was unset
and `sign` succeeds, the modulus extracted from the private key has been
set alongside the computed signature. -/
theorem C7_rsa_sign (pssRaw : RsaPrivateKey → List Nat → List Nat)
    (f : RsaSha256) (message : List Nat) (key : RsaPrivateKey) :
    (key.e ≠ 65537 →
      (RsaSha256.sign pssRaw f message key).2 ≠ none ∧
      (RsaSha256.sign pssRaw f message key).1.signature = f.signature) ∧
    (f.modulus = none →
      ∀ g, RsaSha256.sign pssRaw f message key = (g, none) →
        g.modulus = some (modulusFromPrivateKey key) ∧
        g.signature = some (pssRaw key message)) := by
  constructor
  · intro he
    unfold RsaSha256.sign
    have hsig : rsaSign pssRaw key message =
        .error (.plainError "Unsupported public exponent") := by
      unfold rsaSign
      rw [if_neg he]
    by_cases hm : f.modulus = none
    · rw [if_pos hm]
      rcases hsp : f.setPublicModulus (modulusFromPrivateKey key) with ⟨f1, e⟩
      cases e with
      | some err => simp
      | none =>
        obtain ⟨-, -, -, rfl⟩ :=
          (RsaSha256.setPublicModulus_eq_ok f f1 (modulusFromPrivateKey key)).1 hsp
        simp [hsig]
    · rw [if_neg hm]
      simp [hsig]
  · intro hm g hg
    unfold RsaSha256.sign at hg
    rw [if_pos hm] at hg
    rcases hsp : f.setPublicModulus (modulusFromPrivateKey key) with ⟨f1, e⟩
    rw [hsp] at hg
    cases e with
    | some err => simp at hg
    | none =>
      obtain ⟨-, -, -, rfl⟩ :=
        (RsaSha256.setPublicModulus_eq_ok f f1 (modulusFromPrivateKey key)).1 hsp
      by_cases he : key.e = 65537
      · rw [show rsaSign pssRaw key message = .ok (pssRaw key message) by
          unfold rsaSign; rw [if_pos he]] at hg
        simp only [Prod.mk.injEq] at hg
        rw [← hg.1]
        exact ⟨rfl, rfl⟩
      · rw [show rsaSign pssRaw key message =
            .error (.plainError "Unsupported public exponent") by
          unfold rsaSign; rw [if_neg he]] at hg
        simp at hg

/-- Witness for C7: a key with exponent 3 is rejected with no signature
stored, and a key with exponent 65537 signs after setting the extracted
modulus on a fresh fulfillment. -/
theorem C7_witness :
    ((RsaSha256.sign (fun _ _ => [0]) RsaSha256.init []
        (RsaPrivateKey.mk (List.replicate 128 1) 3)).2 ≠ none ∧
      (RsaSha256.sign (fun _ _ => [0]) RsaSha256.init []
        (RsaPrivateKey.mk (List.replicate 128 1) 3)).1.signature = none) ∧
    ((RsaSha256.mk (some (List.replicate 128 1)) (some [0])).modulus =
        some (modulusFromPrivateKey (RsaPrivateKey.mk (List.replicate 128 1) 65537)) ∧
      (RsaSha256.mk (some (List.replicate 128 1)) (some [0])).signature =
        some ((fun _ _ => [0]) (RsaPrivateKey.mk (List.replicate 128 1) 65537) ([] : List Nat))) := by
  constructor
  · exact (C7_rsa_sign (fun _ _ => [0]) RsaSha256.init []
      (RsaPrivateKey.mk (List.replicate 128 1) 3)).1 (by decide)
  · exact (C7_rsa_sign (fun _ _ => [0]) RsaSha256.init []
      (RsaPrivateKey.mk (List.replicate 128 1) 65537)).2 rfl
      (RsaSha256.mk (some (List.replicate 128 1)) (some [0])) (by decide)

/-- Claim C9: signing the empty message with the all-zero 32-byte seed
populates the fulfillment without error, its fulfillment URI and condition
URI are exactly the stated literals, and `validateFulfillment` on that pair
with the empty message returns true. -/
theorem C9_ed25519_zero_seed_vector :
    (Ed25519.init.sign [] (List.replicate 32 0)).2 = none ∧
    (Ed25519.init.sign [] (List.replicate 32 0)).1.serializeUri =
      .ok "cf:4:O2onvM62pC1io6jQKm8Nc2UyFXcd4kOmOsBIoYtZ2imPiVs8r-LJUGA50OKmY4JWgARnT-jSN3hQkuQNaq9IPk_GAWhwXzHxAVlhOM4hqjV8DTKgZPQj3D7kqjq_U_gD" ∧
    (Ed25519.init.sign [] (List.replicate 32 0)).1.getConditionUri =
      .ok "cc:4:20:O2onvM62pC1io6jQKm8Nc2UyFXcd4kOmOsBIoYtZ2ik:96" ∧
    validateFulfillmentEd
      "cf:4:O2onvM62pC1io6jQKm8Nc2UyFXcd4kOmOsBIoYtZ2imPiVs8r-LJUGA50OKmY4JWgARnT-jSN3hQkuQNaq9IPk_GAWhwXzHxAVlhOM4hqjV8DTKgZPQj3D7kqjq_U_gD"
      "cc:4:20:O2onvM62pC1io6jQKm8Nc2UyFXcd4kOmOsBIoYtZ2ik:96"
      [] = .ok true :=
  ⟨rfl, rfl, rfl, rfl⟩

/-- Claim C10: `Ed25519.calculateMaxFulfillmentLength` is a total function
returning the constant 96 on every object, the empty one included, while
`RsaSha256.calculateMaxFulfillmentLength` throws the missing-data error
whenever the modulus is unset. -/
theorem C10_calcMax_error_contrast (e : Ed25519) (r : RsaSha256) :
    e.calculateMaxFulfillmentLength = 96 ∧
    (r.modulus = none →
      r.calculateMaxFulfillmentLength =
        .error (.missingData "Requires a public modulus")) := by
  refine ⟨rfl, fun h => ?_⟩
  unfold RsaSha256.calculateMaxFulfillmentLength
  rw [h]

/-- Witness for C10 on the freshly constructed objects. -/
theorem C10_witness :
    Ed25519.init.calculateMaxFulfillmentLength = 96 ∧
    RsaSha256.init.calculateMaxFulfillmentLength =
      .error (.missingData "Requires a public modulus") :=
  ⟨(C10_calcMax_error_contrast Ed25519.init RsaSha256.init).1,
    (C10_calcMax_error_contrast Ed25519.init RsaSha256.init).2 rfl⟩
